import Mathlib

/-!
Shallow embedding of the heatmap utility core of `heatmap-react-native`
(`src/types/index.ts` and the histogram of `src/components/StatsPanel.tsx`).

JavaScript numbers are modelled as exact numbers: the purely
order/field-theoretic functions (`getSpeedLabel`, `calculateStats`, the
`StatsPanel` histogram, `geoToScreen`) are defined over `ℚ`, keeping them
executable, while the functions built on transcendental operations
(`getSpeedColor` with its logarithmic normalization, `calculateDistance`)
are defined over `ℝ`.
-/

namespace Heatmap

/-- Field bundle mirroring the `SPEED_THRESHOLDS` constant object. -/
structure SpeedThresholds where
  EXCELLENT : ℚ
  GOOD : ℚ
  FAIR : ℚ
  POOR : ℚ
  VERY_POOR : ℚ

/-- `SPEED_THRESHOLDS` from `src/types/index.ts`. -/
def SPEED_THRESHOLDS : SpeedThresholds :=
  { EXCELLENT := 50, GOOD := 25, FAIR := 10, POOR := 5, VERY_POOR := 1 }

/-- Maximum speed for normalization (Mbps): `MAX_SPEED = 100`. -/
def MAX_SPEED : ℚ := 100

/-- The `SpeedQuality` string union type. -/
inductive SpeedQuality where
  | Excellent
  | Good
  | Fair
  | Poor
  | VeryPoor
  | NoSignal
deriving DecidableEq

/-- `getSpeedLabel` from `src/types/index.ts`: the chain of `>=` tests,
highest threshold first. The speed is a JS number, modelled as a real. -/
noncomputable def getSpeedLabel (speedMbps : ℝ) : SpeedQuality :=
  if speedMbps ≥ (SPEED_THRESHOLDS.EXCELLENT : ℝ) then .Excellent
  else if speedMbps ≥ (SPEED_THRESHOLDS.GOOD : ℝ) then .Good
  else if speedMbps ≥ (SPEED_THRESHOLDS.FAIR : ℝ) then .Fair
  else if speedMbps ≥ (SPEED_THRESHOLDS.POOR : ℝ) then .Poor
  else if speedMbps ≥ (SPEED_THRESHOLDS.VERY_POOR : ℝ) then .VeryPoor
  else .NoSignal

/-- One collected sample. The TS `DataPoint` also carries `id`, coordinates,
a timestamp and precomputed color/label fields; `calculateStats` and the
`StatsPanel` histogram read only `speed`, so only that field is modelled. -/
structure DataPoint where
  speed : ℚ
deriving DecidableEq

/-- Result record of `calculateStats` (TS `DataPointStats`). -/
structure DataPointStats where
  count : ℕ
  average : ℚ
  min : ℚ
  max : ℚ
  excellent : ℕ
  good : ℕ
  fair : ℕ
  poor : ℕ
  veryPoor : ℕ
deriving DecidableEq

/-- JS `Math.min(...speeds)` over a non-empty array. The empty case (JS
would yield `Infinity`) is unreachable behind the length guard in
`calculateStats`. -/
def jsMinList : List ℚ → ℚ
  | [] => 0
  | x :: xs => xs.foldl min x

/-- JS `Math.max(...speeds)` over a non-empty array; empty case unreachable
as for `jsMinList`. -/
def jsMaxList : List ℚ → ℚ
  | [] => 0
  | x :: xs => xs.foldl max x

/-- `calculateStats` from `src/types/index.ts`: early-return of the all-zero
record on the empty list, otherwise a single pass computing count, mean,
min, max and the five tier counts by filtering on the thresholds. -/
def calculateStats (dataPoints : List DataPoint) : DataPointStats :=
  if dataPoints = [] then
    { count := 0, average := 0, min := 0, max := 0,
      excellent := 0, good := 0, fair := 0, poor := 0, veryPoor := 0 }
  else
    let speeds := dataPoints.map (·.speed)
    let sum := speeds.foldl (· + ·) 0
    { count := dataPoints.length
      average := sum / speeds.length
      min := jsMinList speeds
      max := jsMaxList speeds
      excellent := (dataPoints.filter
        (fun p => decide (p.speed ≥ SPEED_THRESHOLDS.EXCELLENT))).length
      good := (dataPoints.filter
        (fun p => decide (p.speed ≥ SPEED_THRESHOLDS.GOOD ∧
          p.speed < SPEED_THRESHOLDS.EXCELLENT))).length
      fair := (dataPoints.filter
        (fun p => decide (p.speed ≥ SPEED_THRESHOLDS.FAIR ∧
          p.speed < SPEED_THRESHOLDS.GOOD))).length
      poor := (dataPoints.filter
        (fun p => decide (p.speed ≥ SPEED_THRESHOLDS.POOR ∧
          p.speed < SPEED_THRESHOLDS.FAIR))).length
      veryPoor := (dataPoints.filter
        (fun p => decide (p.speed < SPEED_THRESHOLDS.POOR))).length }

/-- The displayed Poor segment of `StatsPanel`: both the coverage bar and the
legend render `stats.poor + stats.veryPoor` as a single bucket. -/
def statsPanelPoorBucket (dataPoints : List DataPoint) : ℕ :=
  (calculateStats dataPoints).poor + (calculateStats dataPoints).veryPoor

/-- Bucket index from the `StatsPanel` histogram:
`Math.min(Math.floor((point.speed / MAX_SPEED) * buckets), buckets - 1)`
with `buckets = 10`. -/
def bucketIndex (speed : ℚ) : ℤ :=
  min ⌊speed / MAX_SPEED * 10⌋ 9

/-- Increment the counter at a given index, leaving the list unchanged when
the index is out of range. -/
def bumpAt : List ℕ → ℕ → List ℕ
  | [], _ => []
  | c :: cs, 0 => (c + 1) :: cs
  | c :: cs, n + 1 => c :: bumpAt cs n

/-- The `distribution` array of the `StatsPanel` histogram: ten zero-initialized
buckets, incremented per sample by `forEach`. JS executes
`distribution[bucketIndex]++`; for `speed ≥ 0` (the regime of the histogram
claims) the index lies in `0..9` and `Int.toNat` agrees with the JS index. -/
def distribution (dataPoints : List DataPoint) : List ℕ :=
  dataPoints.foldl (fun d p => bumpAt d (bucketIndex p.speed).toNat)
    (List.replicate 10 0)

/-- `Math.max(...distribution, 1)` from the `StatsPanel` histogram. -/
def maxCount (dataPoints : List DataPoint) : ℕ :=
  (distribution dataPoints).foldl max 1

/-- One bar of the `StatsPanel` histogram. The TS bar also carries a `color`
string, `getSpeedColor` of the bucket midpoint, not modelled here. -/
structure HistogramBar where
  count : ℕ
  height : ℚ
  speed : ℚ
deriving DecidableEq

/-- The histogram of `StatsPanel`: empty list for no data, otherwise one bar
per bucket with `height = count / maxCount * 100` and the bucket midpoint
speed `((index + 0.5) / buckets) * MAX_SPEED`. -/
def histogram (dataPoints : List DataPoint) : List HistogramBar :=
  if dataPoints = [] then []
  else
    let d := distribution dataPoints
    let m := maxCount dataPoints
    d.mapIdx (fun i count =>
      { count := count
        height := (count : ℚ) / (m : ℚ) * 100
        speed := ((i : ℚ) + 1/2) / 10 * MAX_SPEED })

/-- TS `RGBColor`: one color of the gradient palette. Channels are the
integers produced by `Math.round`. -/
structure RGB where
  r : ℤ
  g : ℤ
  b : ℤ
deriving DecidableEq

/-- TS `GradientStop`: a normalized position in `[0,1]` and its color. -/
structure GradientStop where
  pos : ℝ
  color : RGB

/-- `GRADIENT_STOPS` from `src/types/index.ts`: the fixed 12-stop palette
from dark red at position 0 to dark green at position 1. -/
def GRADIENT_STOPS : List GradientStop :=
  [⟨0,    ⟨139, 0, 0⟩⟩,
   ⟨0.05, ⟨255, 0, 0⟩⟩,
   ⟨0.15, ⟨255, 69, 0⟩⟩,
   ⟨0.25, ⟨255, 140, 0⟩⟩,
   ⟨0.35, ⟨255, 165, 0⟩⟩,
   ⟨0.45, ⟨255, 215, 0⟩⟩,
   ⟨0.55, ⟨255, 255, 0⟩⟩,
   ⟨0.65, ⟨173, 255, 47⟩⟩,
   ⟨0.75, ⟨124, 252, 0⟩⟩,
   ⟨0.85, ⟨50, 205, 50⟩⟩,
   ⟨0.95, ⟨0, 200, 0⟩⟩,
   ⟨1,    ⟨0, 180, 0⟩⟩]

/-- JS `Math.round`: round half toward positive infinity. -/
noncomputable def jsRound (x : ℝ) : ℤ := ⌊x + 1/2⌋

/-- `lerpColor` from `src/types/index.ts`: per-channel linear interpolation,
each channel rounded with `Math.round`. -/
noncomputable def lerpColor (color1 color2 : RGB) (t : ℝ) : RGB :=
  { r := jsRound ((color1.r : ℝ) + ((color2.r : ℝ) - (color1.r : ℝ)) * t)
    g := jsRound ((color1.g : ℝ) + ((color2.g : ℝ) - (color1.g : ℝ)) * t)
    b := jsRound ((color1.b : ℝ) + ((color2.b : ℝ) - (color1.b : ℝ)) * t) }

/-- The stop-search loop of `getSpeedColor`: scan adjacent pairs of stops and
return the first pair bracketing `n`; if no pair brackets `n` the loop falls
through and the initial values `dflt` (first stop, last stop) survive. -/
noncomputable def findStopsFrom (n : ℝ) (dflt : GradientStop × GradientStop) :
    List GradientStop → GradientStop × GradientStop
  | s1 :: s2 :: rest =>
    if n ≥ s1.pos ∧ n ≤ s2.pos then (s1, s2)
    else findStopsFrom n dflt (s2 :: rest)
  | _ => dflt

/-- The normalized blend value computed inline in `getSpeedColor`:
`normalizedLinear * 0.4 + logScale * 0.6`, where `normalizedLinear` clamps
`speed / MAX_SPEED` to `[0,1]` and `logScale` is
`log10(speed + 1) / log10(MAX_SPEED + 1)` for positive speeds, else `0`. -/
noncomputable def normalizedSpeed (speedMbps : ℝ) : ℝ :=
  let normalizedLinear := min (max speedMbps 0 / (MAX_SPEED : ℝ)) 1
  let logScale :=
    if speedMbps > 0 then
      Real.logb 10 (speedMbps + 1) / Real.logb 10 ((MAX_SPEED : ℝ) + 1)
    else 0
  normalizedLinear * 0.4 + logScale * 0.6

/-- Channel computation of `getSpeedColor` from `src/types/index.ts`:
normalize, locate the bracketing stops (defaults: first and last stop),
compute the interpolation fraction `t` (guarded to `0` on a degenerate
range) and interpolate. The TS function formats the result as the string
`rgba(r, g, b, opacity)`; the channels carried by that string are modelled
directly. -/
noncomputable def getSpeedColorChannels (speedMbps : ℝ) : RGB :=
  let normalized := normalizedSpeed speedMbps
  -- initial values: GRADIENT_STOPS[0] and GRADIENT_STOPS[GRADIENT_STOPS.length - 1]
  let p := findStopsFrom normalized (⟨0, ⟨139, 0, 0⟩⟩, ⟨1, ⟨0, 180, 0⟩⟩)
    GRADIENT_STOPS
  let range := p.2.pos - p.1.pos
  let t := if range > 0 then (normalized - p.1.pos) / range else 0
  lerpColor p.1.color p.2.color t

/-- `getSpeedColor`: the `rgba(r, g, b, opacity)` string, modelled as the
channel triple it displays together with the caller-supplied opacity. -/
noncomputable def getSpeedColor (speedMbps : ℝ) (opacity : ℝ) : RGB × ℝ :=
  (getSpeedColorChannels speedMbps, opacity)

/-- JS `n.toString(16).padStart(2, '0')` for the nonnegative channel values
reaching the hex formatting of `getSpeedColorComponents`. -/
def hexByte (n : ℤ) : String :=
  let s := String.mk (Nat.toDigits 16 n.toNat)
  if s.length < 2 then "0" ++ s else s

/-- `getSpeedColorComponents` from `src/types/index.ts`. The TS function
formats `getSpeedColor(speedMbps, 1)` and re-parses the string with the
regex `rgba?\((\d+),\s*(\d+),\s*(\d+)/`. On a string of the produced shape
`rgba(r, g, b, 1)` that regex matches exactly when all three channels are
nonnegative integers (a negative channel puts a minus sign where the regex
requires a digit, and `rgb(` occurs nowhere else in the string), and
`parseInt` then returns the channels themselves; otherwise the function
returns the gray fallback `{r: 128, g: 128, b: 128, hex: #808080}`. -/
noncomputable def getSpeedColorComponents (speedMbps : ℝ) : RGB × String :=
  let c := getSpeedColorChannels speedMbps
  if 0 ≤ c.r ∧ 0 ≤ c.g ∧ 0 ≤ c.b then
    (c, "#" ++ hexByte c.r ++ hexByte c.g ++ hexByte c.b)
  else
    (⟨128, 128, 128⟩, "#808080")

/-- Result of `getHeatmapGradient`: three rgba ring colors (modelled as
channels plus alpha) and the opaque hex string. -/
structure HeatmapGradient where
  inner : RGB × ℝ
  middle : RGB × ℝ
  outer : RGB × ℝ
  hex : String

/-- `getHeatmapGradient` from `src/types/index.ts`: the base color of
`getSpeedColorComponents` at alphas 0.9, 0.5 and 0.15. -/
noncomputable def getHeatmapGradient (speedMbps : ℝ) : HeatmapGradient :=
  let baseColor := getSpeedColorComponents speedMbps
  { inner := (baseColor.1, 0.9)
    middle := (baseColor.1, 0.5)
    outer := (baseColor.1, 0.15)
    hex := baseColor.2 }

/-- JS `Math.atan2`, modelled from its specification by cases on the signs
of the arguments (signed zeros are identified with zero). -/
noncomputable def jsAtan2 (y x : ℝ) : ℝ :=
  if x > 0 then Real.arctan (y / x)
  else if x < 0 ∧ y ≥ 0 then Real.arctan (y / x) + Real.pi
  else if x < 0 then Real.arctan (y / x) - Real.pi
  else if y > 0 then Real.pi / 2
  else if y < 0 then -(Real.pi / 2)
  else 0

/-- `calculateDistance` from `src/types/index.ts`: the Haversine great-circle
distance in meters with Earth radius `6371e3`. -/
noncomputable def calculateDistance (lat1 lon1 lat2 lon2 : ℝ) : ℝ :=
  let R : ℝ := 6371e3
  let phi1 := lat1 * Real.pi / 180
  let phi2 := lat2 * Real.pi / 180
  let dphi := (lat2 - lat1) * Real.pi / 180
  let dlambda := (lon2 - lon1) * Real.pi / 180
  let a := Real.sin (dphi / 2) * Real.sin (dphi / 2) +
    Real.cos phi1 * Real.cos phi2 *
      Real.sin (dlambda / 2) * Real.sin (dlambda / 2)
  let c := 2 * jsAtan2 (Real.sqrt a) (Real.sqrt (1 - a))
  R * c

/-- TS `MapRegion`: center coordinates and the spans of the visible region. -/
structure MapRegion where
  latitude : ℚ
  longitude : ℚ
  latitudeDelta : ℚ
  longitudeDelta : ℚ

/-- `geoToScreen` from `src/types/index.ts`: linear (equirectangular)
projection of a coordinate into a `width × height` viewport. -/
def geoToScreen (latitude longitude : ℚ) (region : MapRegion)
    (width height : ℚ) : ℚ × ℚ :=
  (((longitude - (region.longitude - region.longitudeDelta / 2)) /
      region.longitudeDelta) * width,
   ((region.latitude + region.latitudeDelta / 2 - latitude) /
      region.latitudeDelta) * height)

/-! ### Helper lemmas -/

theorem getSpeedLabel_def (s : ℝ) :
    getSpeedLabel s =
      if s ≥ 50 then .Excellent
      else if s ≥ 25 then .Good
      else if s ≥ 10 then .Fair
      else if s ≥ 5 then .Poor
      else if s ≥ 1 then .VeryPoor
      else .NoSignal := by
  simp only [getSpeedLabel, SPEED_THRESHOLDS]
  norm_num

theorem foldl_min_le_init {α : Type} [LinearOrder α] (xs : List α) (a : α) :
    xs.foldl min a ≤ a := by
  induction xs generalizing a with
  | nil => simp
  | cons x xs ih =>
    simp only [List.foldl_cons]
    exact le_trans (ih (min a x)) (min_le_left a x)

theorem foldl_min_le_mem {α : Type} [LinearOrder α] (xs : List α) (x : α) :
    x ∈ xs → ∀ a, xs.foldl min a ≤ x := by
  induction xs with
  | nil => intro hx; cases hx
  | cons y ys ih =>
    intro hx a
    simp only [List.foldl_cons]
    rcases List.mem_cons.mp hx with rfl | h
    · exact le_trans (foldl_min_le_init ys (min a x)) (min_le_right a x)
    · exact ih h (min a y)

theorem foldl_min_mem {α : Type} [LinearOrder α] (xs : List α) :
    ∀ a, xs.foldl min a = a ∨ xs.foldl min a ∈ xs := by
  induction xs with
  | nil => intro a; exact Or.inl rfl
  | cons y ys ih =>
    intro a
    simp only [List.foldl_cons]
    rcases ih (min a y) with h | h
    · rcases min_choice a y with hc | hc
      · exact Or.inl (h.trans hc)
      · exact Or.inr (List.mem_cons.mpr (Or.inl (h.trans hc)))
    · exact Or.inr (List.mem_cons.mpr (Or.inr h))

theorem init_le_foldl_max {α : Type} [LinearOrder α] (xs : List α) (a : α) :
    a ≤ xs.foldl max a := by
  induction xs generalizing a with
  | nil => simp
  | cons x xs ih =>
    simp only [List.foldl_cons]
    exact le_trans (le_max_left a x) (ih (max a x))

theorem mem_le_foldl_max {α : Type} [LinearOrder α] (xs : List α) (x : α) :
    x ∈ xs → ∀ a, x ≤ xs.foldl max a := by
  induction xs with
  | nil => intro hx; cases hx
  | cons y ys ih =>
    intro hx a
    simp only [List.foldl_cons]
    rcases List.mem_cons.mp hx with rfl | h
    · exact le_trans (le_max_right a x) (init_le_foldl_max ys (max a x))
    · exact ih h (max a y)

theorem foldl_max_mem {α : Type} [LinearOrder α] (xs : List α) :
    ∀ a, xs.foldl max a = a ∨ xs.foldl max a ∈ xs := by
  induction xs with
  | nil => intro a; exact Or.inl rfl
  | cons y ys ih =>
    intro a
    simp only [List.foldl_cons]
    rcases ih (max a y) with h | h
    · rcases max_choice a y with hc | hc
      · exact Or.inl (h.trans hc)
      · exact Or.inr (List.mem_cons.mpr (Or.inl (h.trans hc)))
    · exact Or.inr (List.mem_cons.mpr (Or.inr h))

theorem jsMinList_le_mem (l : List ℚ) (x : ℚ) (hx : x ∈ l) : jsMinList l ≤ x := by
  cases l with
  | nil => cases hx
  | cons y ys =>
    simp only [jsMinList]
    rcases List.mem_cons.mp hx with rfl | h
    · exact foldl_min_le_init ys x
    · exact foldl_min_le_mem ys x h y

theorem jsMinList_mem (l : List ℚ) (h : l ≠ []) : jsMinList l ∈ l := by
  cases l with
  | nil => exact absurd rfl h
  | cons y ys =>
    simp only [jsMinList]
    rcases foldl_min_mem ys y with h1 | h1
    · exact List.mem_cons.mpr (Or.inl h1)
    · exact List.mem_cons.mpr (Or.inr h1)

theorem jsMaxList_mem_le (l : List ℚ) (x : ℚ) (hx : x ∈ l) : x ≤ jsMaxList l := by
  cases l with
  | nil => cases hx
  | cons y ys =>
    simp only [jsMaxList]
    rcases List.mem_cons.mp hx with rfl | h
    · exact init_le_foldl_max ys x
    · exact mem_le_foldl_max ys x h y

theorem jsMaxList_mem (l : List ℚ) (h : l ≠ []) : jsMaxList l ∈ l := by
  cases l with
  | nil => exact absurd rfl h
  | cons y ys =>
    simp only [jsMaxList]
    rcases foldl_max_mem ys y with h1 | h1
    · exact List.mem_cons.mpr (Or.inl h1)
    · exact List.mem_cons.mpr (Or.inr h1)

theorem countP_poor_split (l : List DataPoint) :
    l.countP (fun p => decide (5 ≤ p.speed ∧ p.speed < 10)) +
      l.countP (fun p => decide (p.speed < 5)) =
      l.countP (fun p => decide (p.speed < 10)) := by
  induction l with
  | nil => rfl
  | cons a l ih =>
    simp only [List.countP_cons, Bool.decide_and] at ih ⊢
    rcases lt_or_le a.speed 5 with h5 | h5
    · have h10 : a.speed < 10 := lt_trans h5 (by norm_num)
      have h5n : ¬ (5 ≤ a.speed) := not_le.mpr h5
      simp [h5, h10, h5n]
      omega
    · have h5' : ¬ (a.speed < 5) := not_lt.mpr h5
      rcases lt_or_le a.speed 10 with h10 | h10
      · simp [h5, h10, h5']
        omega
      · have h10' : ¬ (a.speed < 10) := not_lt.mpr h10
        simp [h5, h5', h10']
        omega

theorem bumpAt_length (d : List ℕ) (i : ℕ) : (bumpAt d i).length = d.length := by
  induction d generalizing i with
  | nil => rfl
  | cons c cs ih =>
    cases i with
    | zero => rfl
    | succ n => simp only [bumpAt, List.length_cons, ih]

theorem bumpAt_sum (d : List ℕ) (i : ℕ) (h : i < d.length) :
    (bumpAt d i).sum = d.sum + 1 := by
  induction d generalizing i with
  | nil => cases h
  | cons c cs ih =>
    cases i with
    | zero => simp [bumpAt]; omega
    | succ n =>
      have hn : n < cs.length := by simpa using h
      simp only [bumpAt, List.sum_cons, ih n hn]
      omega

theorem bucketIndex_toNat_lt (s : ℚ) : (bucketIndex s).toNat < 10 := by
  have h : bucketIndex s ≤ 9 := min_le_right _ _
  have := Int.toNat_le_toNat h
  omega

theorem distribution_core_sum (pts : List DataPoint) :
    ∀ d : List ℕ, d.length = 10 →
      (pts.foldl (fun d p => bumpAt d (bucketIndex p.speed).toNat) d).sum =
        d.sum + pts.length := by
  induction pts with
  | nil => intro d _; simp
  | cons p pts ih =>
    intro d hd
    simp only [List.foldl_cons, List.length_cons]
    rw [ih _ (by rw [bumpAt_length]; exact hd),
      bumpAt_sum d _ (by rw [hd]; exact bucketIndex_toNat_lt p.speed)]
    omega

theorem distribution_sum (pts : List DataPoint) :
    (distribution pts).sum = pts.length := by
  have h := distribution_core_sum pts (List.replicate 10 0) (by simp)
  simpa [distribution] using h

theorem histogram_counts (pts : List DataPoint) (h : pts ≠ []) :
    (histogram pts).map (·.count) = distribution pts := by
  unfold histogram
  rw [if_neg h]
  simp only [List.mapIdx_eq_enum_map, List.map_map]
  exact List.enum_map_snd (distribution pts)

theorem calculateStats_tier_counts (pts : List DataPoint) :
    (calculateStats pts).excellent =
        pts.countP (fun p => decide (50 ≤ p.speed)) ∧
      (calculateStats pts).good =
        pts.countP (fun p => decide (25 ≤ p.speed ∧ p.speed < 50)) ∧
      (calculateStats pts).fair =
        pts.countP (fun p => decide (10 ≤ p.speed ∧ p.speed < 25)) ∧
      (calculateStats pts).poor =
        pts.countP (fun p => decide (5 ≤ p.speed ∧ p.speed < 10)) ∧
      (calculateStats pts).veryPoor =
        pts.countP (fun p => decide (p.speed < 5)) := by
  by_cases h : pts = []
  · subst h
    simp [calculateStats]
  · simp [calculateStats, h, SPEED_THRESHOLDS, List.countP_eq_length_filter]

/-! ### Claim theorems -/

/-- C3: `getSpeedLabel` is a pure total classifier by inclusive lower bounds,
evaluated highest-first: `≥ 50` Excellent, `≥ 25` Good, `≥ 10` Fair, `≥ 5`
Poor, `≥ 1` Very Poor, otherwise No Signal; `getSpeedLabel 50 = Excellent`,
`getSpeedLabel 49.999 = Good`, and every negative speed yields No Signal. -/
theorem claim_C3 (s : ℝ) :
    (50 ≤ s → getSpeedLabel s = .Excellent) ∧
    (25 ≤ s ∧ s < 50 → getSpeedLabel s = .Good) ∧
    (10 ≤ s ∧ s < 25 → getSpeedLabel s = .Fair) ∧
    (5 ≤ s ∧ s < 10 → getSpeedLabel s = .Poor) ∧
    (1 ≤ s ∧ s < 5 → getSpeedLabel s = .VeryPoor) ∧
    (s < 1 → getSpeedLabel s = .NoSignal) ∧
    getSpeedLabel 50 = .Excellent ∧
    getSpeedLabel 49.999 = .Good ∧
    (s < 0 → getSpeedLabel s = .NoSignal) := by
  refine ⟨?_, ?_, ?_, ?_, ?_, ?_, ?_, ?_, ?_⟩
  · intro h
    rw [getSpeedLabel_def, if_pos (by linarith)]
  · rintro ⟨h1, h2⟩
    rw [getSpeedLabel_def, if_neg (by linarith), if_pos (by linarith)]
  · rintro ⟨h1, h2⟩
    rw [getSpeedLabel_def, if_neg (by linarith), if_neg (by linarith),
      if_pos (by linarith)]
  · rintro ⟨h1, h2⟩
    rw [getSpeedLabel_def, if_neg (by linarith), if_neg (by linarith),
      if_neg (by linarith), if_pos (by linarith)]
  · rintro ⟨h1, h2⟩
    rw [getSpeedLabel_def, if_neg (by linarith), if_neg (by linarith),
      if_neg (by linarith), if_neg (by linarith), if_pos (by linarith)]
  · intro h
    rw [getSpeedLabel_def, if_neg (by linarith), if_neg (by linarith),
      if_neg (by linarith), if_neg (by linarith), if_neg (by linarith)]
  · rw [getSpeedLabel_def, if_pos (by norm_num)]
  · rw [getSpeedLabel_def, if_neg (by norm_num), if_pos (by norm_num)]
  · intro h
    rw [getSpeedLabel_def, if_neg (by linarith), if_neg (by linarith),
      if_neg (by linarith), if_neg (by linarith), if_neg (by linarith)]

/-- C3 witness: a concrete negative speed classifies as No Signal. -/
theorem claim_C3_witness : (-3 : ℝ) < 0 ∧ getSpeedLabel (-3) = .NoSignal :=
  ⟨by norm_num, (claim_C3 (-3)).2.2.2.2.2.2.2.2 (by norm_num)⟩

/-- C4: the tier counts of `calculateStats` partition the samples at the
classifier thresholds — excellent counts speeds `≥ 50`, good counts
`[25, 50)`, fair `[10, 25)`, poor `[5, 10)` and veryPoor speeds `< 5` — and
on speeds `[0, 4, 9, 24, 49, 99]` this yields veryPoor 2, poor 1, fair 1,
good 1, excellent 1. -/
theorem claim_C4 (pts : List DataPoint) :
    ((calculateStats pts).excellent =
        pts.countP (fun p => decide (50 ≤ p.speed)) ∧
      (calculateStats pts).good =
        pts.countP (fun p => decide (25 ≤ p.speed ∧ p.speed < 50)) ∧
      (calculateStats pts).fair =
        pts.countP (fun p => decide (10 ≤ p.speed ∧ p.speed < 25)) ∧
      (calculateStats pts).poor =
        pts.countP (fun p => decide (5 ≤ p.speed ∧ p.speed < 10)) ∧
      (calculateStats pts).veryPoor =
        pts.countP (fun p => decide (p.speed < 5))) ∧
    ((calculateStats [⟨0⟩, ⟨4⟩, ⟨9⟩, ⟨24⟩, ⟨49⟩, ⟨99⟩]).veryPoor = 2 ∧
      (calculateStats [⟨0⟩, ⟨4⟩, ⟨9⟩, ⟨24⟩, ⟨49⟩, ⟨99⟩]).poor = 1 ∧
      (calculateStats [⟨0⟩, ⟨4⟩, ⟨9⟩, ⟨24⟩, ⟨49⟩, ⟨99⟩]).fair = 1 ∧
      (calculateStats [⟨0⟩, ⟨4⟩, ⟨9⟩, ⟨24⟩, ⟨49⟩, ⟨99⟩]).good = 1 ∧
      (calculateStats [⟨0⟩, ⟨4⟩, ⟨9⟩, ⟨24⟩, ⟨49⟩, ⟨99⟩]).excellent = 1) := by
  exact ⟨calculateStats_tier_counts pts,
    by decide, by decide, by decide, by decide, by decide⟩

/-- C5 counterexample: the claim says the `poor` field of the Stats record
returned by `calculateStats` covers the VeryPoor tier `[1, 5)`, but for a
single sample with speed 3 (inside `[1, 5)`) the code puts it in `veryPoor`
and leaves `poor` at 0. -/
theorem claim_C5_counterexample :
    (1 ≤ (3 : ℚ) ∧ (3 : ℚ) < 5) ∧
      (calculateStats [⟨3⟩]).poor = 0 ∧
      (calculateStats [⟨3⟩]).veryPoor = 1 := by
  exact ⟨by decide, by decide, by decide⟩

/-- C5 amended: `calculateStats` keeps Poor and VeryPoor as separate counts
(`poor` covers `[5, 10)`, `veryPoor` covers all speeds `< 5`); the single
displayed Poor bucket is formed in `StatsPanel` as `stats.poor +
stats.veryPoor`, and that merged bucket covers every sample with speed
`< 10`. -/
theorem claim_C5 (pts : List DataPoint) :
    (calculateStats pts).poor =
      pts.countP (fun p => decide (5 ≤ p.speed ∧ p.speed < 10)) ∧
    (calculateStats pts).veryPoor =
      pts.countP (fun p => decide (p.speed < 5)) ∧
    statsPanelPoorBucket pts =
      pts.countP (fun p => decide (p.speed < 10)) := by
  obtain ⟨-, -, -, hpoor, hvery⟩ := calculateStats_tier_counts pts
  refine ⟨hpoor, hvery, ?_⟩
  rw [statsPanelPoorBucket, hpoor, hvery]
  exact countP_poor_split pts

/-- C6: `calculateStats` returns the list length as count, the arithmetic
mean as average, and the extremal speeds as min and max; the empty list
yields the distinguished all-zero Stats record with no division by zero. -/
theorem claim_C6 (pts : List DataPoint) :
    calculateStats ([] : List DataPoint) =
      { count := 0, average := 0, min := 0, max := 0,
        excellent := 0, good := 0, fair := 0, poor := 0, veryPoor := 0 } ∧
    (calculateStats pts).count = pts.length ∧
    (calculateStats pts).average = (pts.map (·.speed)).sum / pts.length ∧
    (pts ≠ [] →
      (∀ p ∈ pts, (calculateStats pts).min ≤ p.speed ∧
        p.speed ≤ (calculateStats pts).max) ∧
      (calculateStats pts).min ∈ pts.map (·.speed) ∧
      (calculateStats pts).max ∈ pts.map (·.speed)) := by
  refine ⟨rfl, ?_, ?_, ?_⟩
  · by_cases h : pts = []
    · subst h; rfl
    · simp [calculateStats, h]
  · by_cases h : pts = []
    · subst h; simp [calculateStats]
    · simp [calculateStats, h, List.sum_eq_foldl]
  · intro hne
    have hmapne : pts.map (·.speed) ≠ [] := fun hc => hne (by simpa using hc)
    have hmin : (calculateStats pts).min = jsMinList (pts.map (·.speed)) := by
      simp [calculateStats, hne]
    have hmax : (calculateStats pts).max = jsMaxList (pts.map (·.speed)) := by
      simp [calculateStats, hne]
    refine ⟨?_, ?_, ?_⟩
    · intro p hp
      rw [hmin, hmax]
      exact ⟨jsMinList_le_mem _ _ (List.mem_map_of_mem _ hp),
        jsMaxList_mem_le _ _ (List.mem_map_of_mem _ hp)⟩
    · rw [hmin]; exact jsMinList_mem _ hmapne
    · rw [hmax]; exact jsMaxList_mem _ hmapne

/-- C6 witness: speeds 10 and 30 give count 2, average 20, min 10, max 30. -/
theorem claim_C6_witness :
    (([⟨10⟩, ⟨30⟩] : List DataPoint) ≠ []) ∧
    (calculateStats [⟨10⟩, ⟨30⟩]).count = 2 ∧
    (calculateStats [⟨10⟩, ⟨30⟩]).average = 20 ∧
    (calculateStats [⟨10⟩, ⟨30⟩]).min = 10 ∧
    (calculateStats [⟨10⟩, ⟨30⟩]).max = 30 ∧
    ((∀ p ∈ ([⟨10⟩, ⟨30⟩] : List DataPoint),
        (calculateStats [⟨10⟩, ⟨30⟩]).min ≤ p.speed ∧
          p.speed ≤ (calculateStats [⟨10⟩, ⟨30⟩]).max) ∧
      (calculateStats [⟨10⟩, ⟨30⟩]).min ∈
        ([⟨10⟩, ⟨30⟩] : List DataPoint).map (·.speed) ∧
      (calculateStats [⟨10⟩, ⟨30⟩]).max ∈
        ([⟨10⟩, ⟨30⟩] : List DataPoint).map (·.speed)) :=
  ⟨by decide, by decide,
    by norm_num [calculateStats, List.sum_eq_foldl, List.cons_ne_nil],
    by norm_num [calculateStats, jsMinList, List.cons_ne_nil],
    by norm_num [calculateStats, jsMaxList, List.cons_ne_nil],
    (claim_C6 [⟨10⟩, ⟨30⟩]).2.2.2 (by decide)⟩

/-- C7: for a non-empty sample list with nonnegative speeds, the histogram
bucket counts are exactly the `distribution` array, they sum to the number
of samples, and the height divisor `maxCount` is at least 1, so the bar
normalization never divides by zero. -/
theorem claim_C7 (pts : List DataPoint) (hne : pts ≠ [])
    (_hpos : ∀ p ∈ pts, 0 ≤ p.speed) :
    ((histogram pts).map (·.count)).sum = pts.length ∧
    (histogram pts).map (·.count) = distribution pts ∧
    1 ≤ maxCount pts := by
  refine ⟨?_, histogram_counts pts hne, ?_⟩
  · rw [histogram_counts pts hne, distribution_sum]
  · show 1 ≤ (distribution pts).foldl max 1
    exact init_le_foldl_max _ _

/-- C7 witness: two samples with speeds 10 and 99. -/
theorem claim_C7_witness :
    (([⟨10⟩, ⟨99⟩] : List DataPoint) ≠ [] ∧
      ∀ p ∈ ([⟨10⟩, ⟨99⟩] : List DataPoint), 0 ≤ p.speed) ∧
    ((histogram [⟨10⟩, ⟨99⟩]).map (·.count)).sum = 2 ∧
    (histogram [⟨10⟩, ⟨99⟩]).map (·.count) = distribution [⟨10⟩, ⟨99⟩] ∧
    1 ≤ maxCount [⟨10⟩, ⟨99⟩] := by
  have h := claim_C7 [⟨10⟩, ⟨99⟩] (by decide) (by decide)
  exact ⟨⟨by decide, by decide⟩, h.1, h.2.1, h.2.2⟩

/-- C8: `geoToScreen` computes exactly the linear projection formulas of the
spec, and consequently maps the region center to the viewport center when
both deltas are nonzero. -/
theorem claim_C8 (lat lng : ℚ) (region : MapRegion) (w h : ℚ) :
    geoToScreen lat lng region w h =
      ((lng - (region.longitude - region.longitudeDelta / 2)) /
          region.longitudeDelta * w,
        (region.latitude + region.latitudeDelta / 2 - lat) /
          region.latitudeDelta * h) ∧
    (region.longitudeDelta ≠ 0 → region.latitudeDelta ≠ 0 →
      geoToScreen region.latitude region.longitude region w h =
        (w / 2, h / 2)) := by
  refine ⟨rfl, ?_⟩
  intro hlng hlat
  unfold geoToScreen
  simp only [Prod.mk.injEq]
  constructor
  · field_simp
    ring
  · field_simp
    ring

/-- C8 witness: a concrete region with nonzero deltas maps its center to the
viewport center. -/
theorem claim_C8_witness :
    ((⟨0, 0, 2, 4⟩ : MapRegion).longitudeDelta ≠ 0) ∧
    ((⟨0, 0, 2, 4⟩ : MapRegion).latitudeDelta ≠ 0) ∧
    geoToScreen 0 0 ⟨0, 0, 2, 4⟩ 10 6 = (10 / 2, 6 / 2) :=
  ⟨by decide, by decide,
    (claim_C8 0 0 ⟨0, 0, 2, 4⟩ 10 6).2 (by decide) (by decide)⟩

theorem jsRound_eq (x : ℝ) (n : ℤ) (h1 : (n : ℝ) ≤ x + 1/2)
    (h2 : x + 1/2 < n + 1) : jsRound x = n := by
  rw [jsRound]
  exact Int.floor_eq_iff.mpr ⟨h1, h2⟩

theorem normalizedSpeed_zero : normalizedSpeed 0 = 0 := by
  simp only [normalizedSpeed]
  rw [if_neg (by norm_num : ¬ ((0:ℝ) > 0))]
  norm_num [MAX_SPEED, min_def, max_def]

theorem normalizedSpeed_neg_five : normalizedSpeed (-5) = 0 := by
  simp only [normalizedSpeed]
  rw [if_neg (by norm_num : ¬ ((-5:ℝ) > 0))]
  norm_num [MAX_SPEED, min_def, max_def]

theorem normalizedSpeed_hundred : normalizedSpeed 100 = 1 := by
  have hlog : Real.logb 10 ((100:ℝ) + 1) ≠ 0 :=
    ne_of_gt (Real.logb_pos (by norm_num) (by norm_num))
  simp only [normalizedSpeed]
  rw [if_pos (by norm_num : (100:ℝ) > 0)]
  norm_num [MAX_SPEED, min_def, max_def, div_self hlog]

theorem logb_ratio_gt : (7:ℝ)/5 < Real.logb 10 1001 / Real.logb 10 101 := by
  have hpos : 0 < Real.logb 10 101 := Real.logb_pos (by norm_num) (by norm_num)
  have key : Real.logb 10 ((101:ℝ)^7) < Real.logb 10 ((1001:ℝ)^5) :=
    Real.logb_lt_logb (by norm_num) (by positivity) (by norm_num)
  rw [Real.logb_pow, Real.logb_pow] at key
  rw [div_lt_div_iff₀ (by norm_num) hpos]
  push_cast at key
  linarith

theorem normalizedSpeed_1000_gt : (1.24 : ℝ) < normalizedSpeed 1000 := by
  have h75 := logb_ratio_gt
  simp only [normalizedSpeed]
  rw [if_pos (by norm_num : (1000:ℝ) > 0)]
  norm_num [MAX_SPEED, min_def, max_def]
  linarith

theorem findStopsFrom_zero (d : GradientStop × GradientStop) :
    findStopsFrom 0 d GRADIENT_STOPS =
      (⟨0, ⟨139, 0, 0⟩⟩, ⟨0.05, ⟨255, 0, 0⟩⟩) := by
  simp only [GRADIENT_STOPS, findStopsFrom]
  norm_num

theorem findStopsFrom_one (d : GradientStop × GradientStop) :
    findStopsFrom 1 d GRADIENT_STOPS =
      (⟨0.95, ⟨0, 200, 0⟩⟩, ⟨1, ⟨0, 180, 0⟩⟩) := by
  simp only [GRADIENT_STOPS, findStopsFrom]
  norm_num

theorem findStopsFrom_of_one_lt (n : ℝ) (hn : 1 < n)
    (d : GradientStop × GradientStop) :
    findStopsFrom n d GRADIENT_STOPS = d := by
  simp only [GRADIENT_STOPS, findStopsFrom]
  repeat rw [if_neg (by rintro ⟨-, hc⟩; linarith)]

theorem getSpeedColorChannels_zero : getSpeedColorChannels 0 = ⟨139, 0, 0⟩ := by
  simp only [getSpeedColorChannels, normalizedSpeed_zero, findStopsFrom_zero]
  rw [if_pos (by norm_num : (0.05:ℝ) - 0 > 0)]
  simp only [lerpColor, RGB.mk.injEq]
  refine ⟨jsRound_eq _ _ (by norm_num) (by norm_num),
    jsRound_eq _ _ (by norm_num) (by norm_num),
    jsRound_eq _ _ (by norm_num) (by norm_num)⟩

theorem getSpeedColorChannels_hundred :
    getSpeedColorChannels 100 = ⟨0, 180, 0⟩ := by
  simp only [getSpeedColorChannels, normalizedSpeed_hundred, findStopsFrom_one]
  rw [if_pos (by norm_num : (1:ℝ) - 0.95 > 0)]
  simp only [lerpColor, RGB.mk.injEq]
  refine ⟨jsRound_eq _ _ (by norm_num) (by norm_num),
    jsRound_eq _ _ (by norm_num) (by norm_num),
    jsRound_eq _ _ (by norm_num) (by norm_num)⟩

theorem getSpeedColorChannels_1000_r_neg :
    (getSpeedColorChannels 1000).r < 0 := by
  have h124 := normalizedSpeed_1000_gt
  have hgt : (1:ℝ) < normalizedSpeed 1000 := lt_trans (by norm_num) h124
  simp only [getSpeedColorChannels]
  rw [findStopsFrom_of_one_lt _ hgt]
  rw [if_pos (by norm_num : (1:ℝ) - 0 > 0)]
  simp only [lerpColor]
  rw [show (normalizedSpeed 1000 - 0) / ((1:ℝ) - 0) = normalizedSpeed 1000 by
    simp]
  rw [jsRound]
  apply Int.floor_lt.mpr
  push_cast
  linarith

/-- C1 evidence: negative speeds normalize exactly as speed 0 does (both give
blend value 0), but at speed 1000 the blend value exceeds 1, so the claimed
invariant that the normalized value always lies in `[0,1]` fails above
`MAX_SPEED`: the log term is never clamped. -/
theorem claim_C1 :
    normalizedSpeed (-5) = 0 ∧ normalizedSpeed 0 = 0 ∧
      1 < normalizedSpeed 1000 :=
  ⟨normalizedSpeed_neg_five, normalizedSpeed_zero,
    lt_trans (by norm_num) normalizedSpeed_1000_gt⟩

/-- C2: `getSpeedColor 0` carries exactly the first gradient stop's color,
dark red (139, 0, 0), and `getSpeedColor 100` exactly the last stop's color,
dark green (0, 180, 0), for every opacity. -/
theorem claim_C2 (opacity : ℝ) :
    getSpeedColor 0 opacity = (⟨139, 0, 0⟩, opacity) ∧
    getSpeedColor 100 opacity = (⟨0, 180, 0⟩, opacity) ∧
    (GRADIENT_STOPS.head?).map (·.color) = some ⟨139, 0, 0⟩ ∧
    (GRADIENT_STOPS.getLast?).map (·.color) = some ⟨0, 180, 0⟩ := by
  refine ⟨?_, ?_, rfl, rfl⟩
  · simp only [getSpeedColor, getSpeedColorChannels_zero]
  · simp only [getSpeedColor, getSpeedColorChannels_hundred]

/-- C9: the Haversine distance is zero on identical points and symmetric in
its two endpoints. -/
theorem claim_C9 :
    (∀ lat lng : ℝ, calculateDistance lat lng lat lng = 0) ∧
    (∀ lat1 lon1 lat2 lon2 : ℝ,
      calculateDistance lat1 lon1 lat2 lon2 =
        calculateDistance lat2 lon2 lat1 lon1) := by
  constructor
  · intro lat lng
    simp only [calculateDistance]
    rw [sub_self, sub_self]
    norm_num [jsAtan2]
  · intro a b c d
    have hs1 : ∀ u v : ℝ, Real.sin ((u - v) * Real.pi / 180 / 2) =
        -Real.sin ((v - u) * Real.pi / 180 / 2) := by
      intro u v
      have h : (u - v) * Real.pi / 180 / 2 = -((v - u) * Real.pi / 180 / 2) := by
        ring
      rw [h, Real.sin_neg]
    simp only [calculateDistance]
    rw [hs1 a c, hs1 b d]
    ring_nf

/-- C10: at speed 1000 (above `MAX_SPEED`) the blend value exceeds 1, the
stop search falls through to the first/last pair, the extrapolated red
channel is negative, and both `getSpeedColorComponents` and
`getHeatmapGradient` return the gray fallback (128, 128, 128) / `#808080`. -/
theorem claim_C10 :
    1 < normalizedSpeed 1000 ∧
    (getSpeedColorChannels 1000).r < 0 ∧
    getSpeedColorComponents 1000 = (⟨128, 128, 128⟩, "#808080") ∧
    getHeatmapGradient 1000 =
      { inner := (⟨128, 128, 128⟩, 0.9), middle := (⟨128, 128, 128⟩, 0.5),
        outer := (⟨128, 128, 128⟩, 0.15), hex := "#808080" } := by
  have hr := getSpeedColorChannels_1000_r_neg
  have hcomp : getSpeedColorComponents 1000 = (⟨128, 128, 128⟩, "#808080") := by
    simp only [getSpeedColorComponents]
    rw [if_neg (fun hc => absurd hc.1 (not_le.mpr hr))]
  exact ⟨lt_trans (by norm_num) normalizedSpeed_1000_gt, hr, hcomp,
    by simp only [getHeatmapGradient, hcomp]⟩

end Heatmap
